import Mathlib

/-!
Verification development for the termite-platform plugin runtime.

The definitions below are a shallow embedding of the Python sources:
  * `src/nanopp/plugins/support.py` — version handling, requires/exports
    entries, and the plugin-manifest parser;
  * `src/nanopp/platform.py` — the plugin lifecycle container, the plugin
    manager (registry) and the platform orchestrator.

Python strings become `String`, dictionaries become insertion-ordered
association lists, object identity/aliasing is modelled by a container heap
keyed by `Nat`, and raised exceptions become explicit `Option PErr` results
returned next to the post-raise state (Python mutations performed before a
raise persist, so each operation returns the state as it is at raise time).

The dependency-graph component (`nanopp/dependencies.py`) and the
loader/finder collaborators (`nanopp/loader.py`, `nanopp/resources.py`) are
not part of the source tree; the definitions for them are modelled from the
spec and carry doc comments saying so.
-/

namespace Termite

/-! ### Small Python string primitives -/

/-- Characters stripped by Python `str.strip()` (the ASCII whitespace that
occurs in the descriptors handled here). -/
def isPySpace (c : Char) : Bool :=
  c == ' ' || c == '\t' || c == '\n' || c == '\r'

/-- Python `str.strip()` on the character list. -/
def pyStripChars (l : List Char) : List Char :=
  ((l.dropWhile isPySpace).reverse.dropWhile isPySpace).reverse

/-- Python `str.strip()`. -/
def pyStrip (s : String) : String := ⟨pyStripChars s.data⟩

/-- ASCII upper-casing of one character, as Python `str.upper()` does on the
block names appearing in manifests. -/
def asciiUpper (c : Char) : Char :=
  if 'a' ≤ c ∧ c ≤ 'z' then Char.ofNat (c.toNat - 32) else c

/-- Python `str.upper()` (ASCII fragment). -/
def pyUpper (s : String) : String := ⟨s.data.map asciiUpper⟩

/-- Lexicographic code-point comparison of character lists: the order Python
uses for `<` on `str`. -/
def pyLtChars : List Char → List Char → Bool
  | [], [] => false
  | [], _ :: _ => true
  | _ :: _, [] => false
  | a :: xs, b :: ys => if a < b then true else if b < a then false else pyLtChars xs ys

/-- Python `a < b` on strings: plain lexicographic comparison by code point. -/
def pyStrLt (a b : String) : Bool := pyLtChars a.data b.data

/-- `s.split('.')` as Python computes it (always at least one part). -/
def splitDotAux : List Char → List Char → List (List Char)
  | [], acc => [acc.reverse]
  | c :: rest, acc =>
    if c == '.' then acc.reverse :: splitDotAux rest [] else splitDotAux rest (c :: acc)

/-- Python `version.split('.')`. -/
def pySplitDot (s : String) : List String :=
  (splitDotAux s.data []).map (fun l => ⟨l⟩)

/-! ### `src/nanopp/plugins/support.py` — version checks and entries -/

/-- `check_min_version(version, min_version, incl)` (support.py:64-71).
`version >= min_version` / `version > min_version` are Python string
comparisons, i.e. whole-string lexicographic comparison by code point. -/
def check_min_version (version : String) (min_version : Option String) (incl : Bool) : Bool :=
  match min_version with
  | none => true
  | some mv => if incl then !(pyStrLt version mv) else pyStrLt mv version

/-- `check_max_version(version, max_version, incl)` (support.py:74-81). -/
def check_max_version (version : String) (max_version : Option String) (incl : Bool) : Bool :=
  match max_version with
  | none => true
  | some mv => if incl then !(pyStrLt mv version) else pyStrLt version mv

/-- `normalize_version_string(version)` (support.py:89-101): pad a dotted
version with trailing `"0"` segments up to three segments; a version that
already has three or more segments is returned unchanged. -/
def normalize_version_string (version : String) : String :=
  let vrs := pySplitDot version
  if vrs.length < 3 then String.intercalate "." (vrs ++ List.replicate (3 - vrs.length) "0")
  else version

/-- `normalize_version(version_tpl)` (support.py:84-86) on an
`(Option version, inclusive)` pair; `normalize_version_string(None)` is
`None`. -/
def normalize_version (t : Option String × Bool) : Option String × Bool :=
  match t with
  | (none, i) => (none, i)
  | (some v, i) => (some (normalize_version_string v), i)

/-- `RequiresEntry` (support.py:104-125): a required capability or sibling
plugin with a two-sided version range; each side is an optional bound plus an
inclusivity flag. -/
structure RequiresEntry where
  name : String
  is_package : Bool
  is_plugin : Bool
  version_range : List (Option String × Bool)
deriving DecidableEq, Repr

/-- `RequiresEntry.__init__` (support.py:110-118): a missing or empty range
becomes two absent bounds, a one-element range gets an absent upper bound,
and both stored bounds are normalized.  A Python `None` range is modelled as
the empty list (both give the same default). -/
def RequiresEntry.make (entry_name : String) (vr : List (Option String × Bool))
    (is_pkg is_plug : Bool) : RequiresEntry :=
  let vr1 := if vr.length = 0 then [(none, false), (none, false)] else vr
  let vr2 := if vr1.length < 2 then vr1 ++ [(none, false)] else vr1
  { name := entry_name, is_package := is_pkg, is_plugin := is_plug,
    version_range := [normalize_version (vr2.getD 0 (none, false)),
                      normalize_version (vr2.getD 1 (none, false))] }

/-- `RequiresEntry.version_in_range(version)` (support.py:120-125): the
queried version is compared as-is (it is not normalized) against the stored
bounds using Python string comparison. -/
def RequiresEntry.version_in_range (e : RequiresEntry) (version : String) : Bool :=
  let lo := e.version_range.getD 0 (none, false)
  let hi := e.version_range.getD 1 (none, false)
  check_min_version version lo.1 lo.2 && check_max_version version hi.1 hi.2

/-- `ExportsEntry` (support.py:57-61). -/
structure ExportsEntry where
  name : String
  is_package : Bool
  version : Option String
deriving DecidableEq, Repr

/-! ### Spec-side version semantics (for claim C6 only)

These definitions follow the words of spec §4.1 rather than the source; they
exist solely to compare the claimed range semantics against
`RequiresEntry.version_in_range` above. -/

/-- Parse a version segment as a natural number (a non-empty digit string),
the integer-parse acceptance relevant to dotted version segments. -/
def segToNat? (s : String) : Option Nat :=
  if s.data ≠ [] ∧ s.data.all Char.isDigit then
    some (s.data.foldl (fun acc c => acc * 10 + (c.toNat - 48)) 0)
  else none

/-- Modelled from the spec (§4.1), for comparison only: one version segment is
compared numerically when both segments parse as integers, else
lexicographically. -/
def specSegCompare (a b : String) : Ordering :=
  match segToNat? a, segToNat? b with
  | some m, some n => compare m n
  | _, _ => if pyStrLt a b then .lt else if pyStrLt b a then .gt else .eq

/-- Modelled from the spec (§4.1), for comparison only: segment-by-segment
comparison of segment lists. -/
def specSegsCompare : List String → List String → Ordering
  | [], [] => .eq
  | [], _ :: _ => .lt
  | _ :: _, [] => .gt
  | a :: xs, b :: ys =>
    match specSegCompare a b with
    | .eq => specSegsCompare xs ys
    | o => o

/-- Modelled from the spec (§4.1), for comparison only: both versions are
normalized to three segments, then compared segment-by-segment. -/
def specVersionCompare (a b : String) : Ordering :=
  specSegsCompare (pySplitDot (normalize_version_string a))
    (pySplitDot (normalize_version_string b))

/-- Modelled from the spec (§4.1), for comparison only: range membership with
the version normalized first and bounds checked per inclusivity. -/
def specVersionInRange (e : RequiresEntry) (version : String) : Bool :=
  let lo := e.version_range.getD 0 (none, false)
  let hi := e.version_range.getD 1 (none, false)
  (match lo.1 with
   | none => true
   | some b => if lo.2 then specVersionCompare version b ≠ .lt
               else specVersionCompare version b = .gt) &&
  (match hi.1 with
   | none => true
   | some b => if hi.2 then specVersionCompare version b ≠ .gt
               else specVersionCompare version b = .lt)

/-! ### `src/nanopp/plugins/support.py` — manifest parser -/

/-- The result of `PluginManifestParser.parse`, i.e. `PluginManifest` as
produced by `PluginManifestBuilder.build` (support.py:128-189).  The builder's
fields are copied one-for-one by `build()`, so builder and manifest are
modelled as one structure.  `plugin_classes` is an `Option` because the
builder method `plugin_classes(classes)` overwrites the initial empty list
with whatever the content handler returned (the stub handler returns `None`);
the `requires`, `requires_plugins` and `exports` builder methods append the
handler result, so those lists hold optional entries. -/
structure ParsedManifest where
  id : Option String
  version : Option String
  plugin_classes : Option (List String)
  requires : List (Option RequiresEntry)
  requires_plugins : List (Option RequiresEntry)
  exports : List (Option ExportsEntry)
deriving DecidableEq, Repr

/-- A fresh `PluginManifestBuilder` (support.py:144-150). -/
def emptyBuilder : ParsedManifest :=
  { id := none, version := none, plugin_classes := some [],
    requires := [], requires_plugins := [], exports := [] }

/-- The six recognized block names of `PluginManifestParser.BLOCKS`
(support.py:211-236). -/
inductive BlockKind where
  | pluginId | versionB | pluginClasses | requiresBlock | exportsBlock | requiresPluginsBlock
deriving DecidableEq, Repr

/-- Lookup in `PluginManifestParser.BLOCKS` by upper-cased block name. -/
def blockKind (b : String) : Option BlockKind :=
  if b = "PLUGIN-ID" then some .pluginId
  else if b = "VERSION" then some .versionB
  else if b = "PLUGIN-CLASSES" then some .pluginClasses
  else if b = "REQUIRES" then some .requiresBlock
  else if b = "EXPORTS" then some .exportsBlock
  else if b = "REQUIRES-PLUGINS" then some .requiresPluginsBlock
  else none

/-- `PluginManifestParser.on_block` (support.py:265-271) combined with the
content handlers and the builder methods they dispatch to:
`read_plugin_id`/`read_plugin_version` strip the content; the handlers
`read_plugin_classes`, `read_requires`, `read_exports` and
`read_requires_plugins` are stubs (`pass`, support.py:284-294) and return
`None`, which the builder then stores (overwriting `plugin_classes`,
appending to the three entry lists).  An unknown block is logged by
`read_unknown_block` and leaves the builder untouched. -/
def on_block (block : String) (content : String) (b : ParsedManifest) : ParsedManifest :=
  match blockKind (pyUpper block) with
  | some .pluginId => { b with id := some (pyStrip content) }
  | some .versionB => { b with version := some (pyStrip content) }
  | some .pluginClasses => { b with plugin_classes := none }
  | some .requiresBlock => { b with requires := b.requires ++ [none] }
  | some .exportsBlock => { b with exports := b.exports ++ [none] }
  | some .requiresPluginsBlock => { b with requires_plugins := b.requires_plugins ++ [none] }
  | none => b

/-- The regex `^(?P<block>[^:]+):(?P<content>.*)` of
`PluginManifestParser.RGX_PLUGIN_ENTRY` applied with `re.match`: succeeds iff
the line has at least one non-colon character before a colon; yields the text
before the first colon and the (untrimmed) text after it. -/
def splitColonAux : List Char → List Char → Option (String × String)
  | [], _ => none
  | c :: rest, acc =>
    if c == ':' then (if acc.isEmpty then none else some (⟨acc.reverse⟩, ⟨rest⟩))
    else splitColonAux rest (c :: acc)

/-- Match one (already stripped) line against the block-header regex. -/
def matchBlockLine (line : String) : Option (String × String) :=
  splitColonAux line.data []

/-- The `while` loop of `PluginManifestParser.parse` (support.py:243-263) over
the descriptor's lines.  Each line is stripped; comment lines (first character
`#`) are skipped; a block-header line flushes the previous block (if any) via
`on_block` and starts a new one; any other line is appended to the running
content.  When the input ends the pending block is NOT flushed — `parse`
returns `builder.build()` without a final `on_block` call, so the last block
of every descriptor is dropped. -/
def parseLines : List String → Option String → String → ParsedManifest → ParsedManifest
  | [], _, _, b => b
  | l :: ls, block, content, b =>
    let line := pyStrip l
    if line ≠ "" ∧ line.data.headD ' ' == '#' then parseLines ls block content b
    else
      match matchBlockLine line with
      | some (blk, cnt) =>
        let b1 := match block with
          | none => b
          | some bl => on_block (pyStrip bl) content b
        parseLines ls (some blk) cnt b1
      | none =>
        -- `content += line.strip()`; `line` is already stripped here.
        parseLines ls block (content ++ line) b

/-- `PluginManifestParser.parse(manifest_stream)` over the stream's lines. -/
def parseManifest (lines : List String) : ParsedManifest :=
  parseLines lines none "" emptyBuilder

/-- The worked descriptor of `TestPluginManifestParser.setUp`
(src/tests/plugins/test_support.py:23-32), line by line as `readline`
delivers it. -/
def testDescriptorLines : List String :=
  ["",
   "        Plugin-Id: test.plugin",
   "        Version: 0.1.2.TEST",
   "        Plugin-Classes: test.class.One;",
   "                        test.class.Two",
   "        Requires: test.pkg [0.2.3, 0.2.5); test.pkg2 (1,7); other.pkg [1.a, 3.4.5]",
   "        Exports: test.plugin [1.0.0]; test.plugin.module[1.0.0]",
   "        Requires-Plugins: plugin1 [1.0];",
   "                            plugin2 (1.0, 2.0);",
   "        "]

/-! ### `src/nanopp/platform.py` — errors, states, hooks -/

/-- The exceptions raised by the platform code: `PluginLifecycleException`
and `UnsatisfiedDependencyException` (platform.py:465-474), the two
install-order errors the spec assigns to the dependency graph (§4.3, §7), and
plain `Exception`s / runtime errors as `generic`. -/
inductive PErr where
  | lifecycle (msg : String)
  | unsatisfied (msg : String)
  | cyclicDependency
  | unresolvedDependency
  | generic (msg : String)
deriving DecidableEq, Repr

/-- The five plugin states `Plugin.STATE_*` (platform.py:38-69). -/
inductive PState where
  | uninstalled | installed | active | deactivated | disposed
deriving DecidableEq, Repr

/-- The integer value of each state constant. -/
def pyStateVal : PState → Nat
  | .uninstalled => 0
  | .installed => 1
  | .active => 2
  | .deactivated => 3
  | .disposed => 4

/-- Python `str(self.plugin_state)`: the state is an `int` constant (or
`None` before `load`). -/
def pyStateStr : Option PState → String
  | none => "None"
  | some s => toString (pyStateVal s)

/-- A resolved hook instance.  A hook's behaviour, as far as the lifecycle
code can observe it, is whether each of its three methods raises when called
(the external `Proxy` wrap for non-`Plugin` hooks does not change this
interface). -/
structure Hook where
  activateRaises : Bool
  deactivateRaises : Bool
  onStateChangeRaises : Bool
deriving DecidableEq, Repr

/-- The manifest a loaded plugin resource reports via `get_manifest()`.  The
platform code reads `id`, `version`, `plugin_classes`, `requires`,
`requires_plugins` and `exports` from it as populated values. -/
structure RtManifest where
  id : String
  version : String
  plugin_classes : List String
  requires : List RequiresEntry
  requires_plugins : List RequiresEntry
  exports : List ExportsEntry
deriving DecidableEq, Repr

/-- Modelled from the spec (§6): the loader collaborator
(`nanopp/resources.py` / `nanopp/loader.py`, not under src/).  `loadPlugin`
resolves a `plugin:<ref>` resource to its manifest, `loadClass` resolves a
`class:<name>` hook unit to an instantiated hook; `none` models the loader
raising. -/
structure LoaderEnv where
  loadPlugin : String → Option RtManifest
  loadClass : String → Option Hook

/-! ### `PluginContainer` (platform.py:81-184) -/

/-- The mutable fields of `PluginContainer.__init__` (platform.py:82-93).
`plugin` holds the loaded resource (identified with its manifest, the only
thing the container reads from it); `plugin_hooks` becomes `None` at
`dispose`.  The unused `dependencies` list is omitted. -/
structure PluginContainer where
  plugin_ref : String
  plugin_id : Option String
  manifest : Option RtManifest
  plugin_hooks : Option (List Hook)
  plugin_state : Option PState
  plugin : Option RtManifest
  version : Option String
deriving DecidableEq, Repr

/-- `PluginContainer.__init__(plugin_ref, ...)`. -/
def initContainer (ref : String) : PluginContainer :=
  { plugin_ref := ref, plugin_id := none, manifest := none, plugin_hooks := some [],
    plugin_state := none, plugin := none, version := none }

/-- `PluginContainer.load` (platform.py:95-103). -/
def PluginContainer.load (env : LoaderEnv) (c : PluginContainer) :
    PluginContainer × Option PErr :=
  if c.plugin_state = some .disposed then
    (c, some (.lifecycle "Plugin already disposed"))
  else
    match env.loadPlugin c.plugin_ref with
    | none => (c, some (.generic ("Cannot load plugin: " ++ c.plugin_ref)))
    | some res =>
      ({ c with plugin := some res, manifest := some res, plugin_id := some res.id,
                version := some res.version, plugin_state := some .uninstalled }, none)

/-- `PluginContainer.create_hooks` (platform.py:117-124): resolve each hook
class in order, appending each instantiated hook to the container's hook
list; a failed load raises, leaving the hooks appended so far in place. -/
def createHooks (env : LoaderEnv) : List String → List Hook → List Hook × Option PErr
  | [], acc => (acc, none)
  | cn :: rest, acc =>
    match env.loadClass cn with
    | none => (acc, some (.generic ("Cannot load class: " ++ cn)))
    | some h => createHooks env rest (acc ++ [h])

/-- `PluginContainer.install` (platform.py:105-115).  Valid only from
`UNINSTALLED`; `resolve_dependencies` is a `pass` stub; on any failure inside
the `try` the state becomes `DISPOSED` and the exception is re-raised.  The
returned `List PState` is the trace of `notify_state_change` broadcasts. -/
def PluginContainer.install (env : LoaderEnv) (c : PluginContainer) :
    PluginContainer × List PState × Option PErr :=
  if c.plugin_state ≠ some .uninstalled then
    (c, [], some (.lifecycle ("Cannot install plugin. Invalid state: " ++
      pyStateStr c.plugin_state)))
  else
    match c.plugin, c.plugin_hooks with
    | some res, some hooks =>
      match createHooks env res.plugin_classes hooks with
      | (hs, some e) =>
        ({ c with plugin_hooks := some hs, plugin_state := some .disposed }, [], some e)
      | (hs, none) =>
        ({ c with plugin_hooks := some hs, plugin_state := some .installed },
         [.installed], none)
    | _, _ => ({ c with plugin_state := some .disposed }, [], some (.generic "AttributeError"))

/-- The `for hook in self.plugin_hooks: hook.activate()` loop of
`PluginContainer.activate`: true iff the loop raises (at the first hook whose
`activate` raises). -/
def hookLoopRaises : List Hook → Bool
  | [] => false
  | h :: hs => if h.activateRaises then true else hookLoopRaises hs

/-- `PluginContainer.activate` (platform.py:132-143).  Valid from `INSTALLED`
or `DEACTIVATED`.  A hook error is logged and swallowed: the state becomes
`DEACTIVATED`, hooks are notified of `DEACTIVATED`, and no exception
propagates. -/
def PluginContainer.activate (c : PluginContainer) :
    PluginContainer × List PState × Option PErr :=
  if c.plugin_state ≠ some .installed ∧ c.plugin_state ≠ some .deactivated then
    (c, [], some (.lifecycle ("Cannot activate plugin. Invalid state: " ++
      pyStateStr c.plugin_state)))
  else
    match c.plugin_hooks with
    | none => (c, [], some (.generic "TypeError"))
    | some hooks =>
      if hookLoopRaises hooks then
        ({ c with plugin_state := some .deactivated }, [.deactivated], none)
      else
        ({ c with plugin_state := some .active }, [.active], none)

/-- `PluginContainer.deactivate` (platform.py:145-155).  Valid only from
`ACTIVE`; each hook's `deactivate` error is caught and logged individually,
so the loop always completes; then state becomes `DEACTIVATED`. -/
def PluginContainer.deactivate (c : PluginContainer) :
    PluginContainer × List PState × Option PErr :=
  if c.plugin_state ≠ some .active then
    (c, [], some (.lifecycle ("Cannot deactivate plugin. Invalid state: " ++
      pyStateStr c.plugin_state)))
  else
    match c.plugin_hooks with
    | none => (c, [], some (.generic "TypeError"))
    | some _ => ({ c with plugin_state := some .deactivated }, [.deactivated], none)

/-- `PluginContainer.uninstall` (platform.py:157-161).  Valid from
`DEACTIVATED` or `INSTALLED`. -/
def PluginContainer.uninstall (c : PluginContainer) :
    PluginContainer × List PState × Option PErr :=
  if c.plugin_state ≠ some .deactivated ∧ c.plugin_state ≠ some .installed then
    (c, [], some (.lifecycle ("Cannot uninstall plugin. Invalid state: " ++
      pyStateStr c.plugin_state)))
  else
    ({ c with plugin_state := some .uninstalled }, [.uninstalled], none)

/-- `PluginContainer.dispose` (platform.py:163-169).  Valid only from
`UNINSTALLED`; clears the hook list and the plugin resource; does not
notify. -/
def PluginContainer.dispose (c : PluginContainer) :
    PluginContainer × List PState × Option PErr :=
  if c.plugin_state ≠ some .uninstalled then
    (c, [], some (.lifecycle ("Cannot dispose plugin. Invalid state: " ++
      pyStateStr c.plugin_state)))
  else
    ({ c with plugin_state := some .disposed, plugin_hooks := none, plugin := none },
     [], none)

/-! ### The dependency graph (`DependenciesManager`)

`nanopp/dependencies.py` is imported by platform.py but is not under src/;
every definition in this section is modelled from the spec (§4.3). -/

/-- Modelled from the spec (§4.3): one dependency-graph node — plugin id, the
ids it depends on, an availability flag, and the owning container (a heap
id in this embedding). -/
structure DepNode where
  id : String
  dependsOn : List String
  available : Bool
  owner : Nat
deriving DecidableEq, Repr

/-- Modelled from the spec (§4.3): the graph is its nodes in insertion
order. -/
structure DependenciesManager where
  nodes : List DepNode
deriving DecidableEq, Repr

/-- Modelled from the spec (§4.3): `addDependency(id, dependsOn, owner)`
registers or replaces node `id`'s edge set; a replaced node keeps its
position, a new node is appended. -/
def DependenciesManager.addDependency (g : DependenciesManager) (id : String)
    (deps : List String) (owner : Nat) : DependenciesManager :=
  if (g.nodes.find? (fun n => n.id == id)).isSome then
    ⟨g.nodes.map (fun n => if n.id == id then { n with dependsOn := deps, owner := owner } else n)⟩
  else
    ⟨g.nodes ++ [{ id := id, dependsOn := deps, available := false, owner := owner }]⟩

/-- Modelled from the spec (§4.3): `deleteDependency(id)` removes the node;
dependents are not cascaded. -/
def DependenciesManager.deleteDependency (g : DependenciesManager) (id : String) :
    DependenciesManager :=
  ⟨g.nodes.filter (fun n => !(n.id == id))⟩

/-- Modelled from the spec (§4.3): `markAvailable(id)` flips the node's
availability flag. -/
def DependenciesManager.markAvailable (g : DependenciesManager) (id : String) :
    DependenciesManager :=
  ⟨g.nodes.map (fun n => if n.id == id then { n with available := true } else n)⟩

/-- Modelled from the spec (§4.3): `allDependenciesSatisfied(id)` is true iff
every id the node depends on is available (a dependency without a node is not
available). -/
def DependenciesManager.allDependenciesSatisfied (g : DependenciesManager) (id : String) :
    Bool :=
  match g.nodes.find? (fun n => n.id == id) with
  | none => false
  | some n => n.dependsOn.all (fun d =>
      match g.nodes.find? (fun m => m.id == d) with
      | some m => m.available
      | none => false)

/-- A node all of whose dependencies have already been emitted. -/
def readyNode (emitted : List String) (n : DepNode) : Bool :=
  n.dependsOn.all (fun d => emitted.elem d)

/-- Modelled from the spec (§4.3): the body of `getInstallOrder` — repeatedly
emit the first (insertion-order) not-yet-emitted node whose dependencies are
all emitted; if none is ready while nodes remain, the graph is cyclic. -/
def kahn : Nat → List String → List DepNode → Except PErr (List String)
  | _, emitted, [] => .ok emitted.reverse
  | 0, _, _ :: _ => .error .cyclicDependency
  | fuel + 1, emitted, r :: rs =>
    match (r :: rs).find? (readyNode emitted) with
    | none => .error .cyclicDependency
    | some n => kahn fuel (n.id :: emitted) ((r :: rs).eraseP (fun m => m.id == n.id))

/-- Modelled from the spec (§4.3): `getInstallOrder()` — fails with
`UnresolvedDependencyError` if some edge references an id never registered,
with `CyclicDependencyError` if a cycle is detected, and otherwise returns a
topological ordering with ties broken by insertion order. -/
def DependenciesManager.getInstallOrder (g : DependenciesManager) :
    Except PErr (List String) :=
  if g.nodes.any (fun n => n.dependsOn.any (fun d => !((g.nodes.map (·.id)).elem d))) then
    .error .unresolvedDependency
  else
    kahn g.nodes.length [] g.nodes

/-! ### Association-list helpers for Python dicts

Python dicts iterate in insertion order; assigning an existing key keeps its
position, a new key is appended, `del` removes it. -/

/-- `d.get(k)`. -/
def alget {κ α : Type} [BEq κ] (m : List (κ × α)) (k : κ) : Option α :=
  (m.find? (fun p => p.1 == k)).map (fun p => p.2)

/-- `d[k] = v`. -/
def alset {κ α : Type} [BEq κ] (m : List (κ × α)) (k : κ) (v : α) : List (κ × α) :=
  if (m.find? (fun p => p.1 == k)).isSome then
    m.map (fun p => if p.1 == k then (k, v) else p)
  else m ++ [(k, v)]

/-- `del d[k]` (no-op when absent; call sites below guard like the source). -/
def aldel {κ α : Type} [BEq κ] (m : List (κ × α)) (k : κ) : List (κ × α) :=
  m.filter (fun p => !(p.1 == k))

/-! ### `PluginManager` (platform.py:316-462) -/

/-- The state of a `PluginManager` (platform.py:317-327).  Containers live in
a heap keyed by `Nat` so that the two dicts alias the same mutable container
objects, as in Python.  `__init__` creates exactly two `DependenciesManager`
instances, `modules_dependencies` and `plugins_dependencies`
(platform.py:321-322); no method of the class ever uses either.  The
attribute `self.dependencies_manager` that the methods do read is never
assigned anywhere, so every read of it raises `AttributeError` (see
`dependenciesManagerAttributeError` below). -/
structure PMState where
  containers : List (Nat × PluginContainer)
  nextId : Nat
  plugins_by_ref : List (String × Nat)
  plugins_by_id : List (String × Nat)
  all_exports : List (ExportsEntry × Nat)
  all_requires : List (RequiresEntry × Nat)
  modules_dependencies : DependenciesManager
  plugins_dependencies : DependenciesManager
  dependencies_built : Bool
deriving Repr, DecidableEq

/-- A fresh `PluginManager`. -/
def PMState.init : PMState :=
  { containers := [], nextId := 0, plugins_by_ref := [], plugins_by_id := [],
    all_exports := [], all_requires := [], modules_dependencies := ⟨[]⟩,
    plugins_dependencies := ⟨[]⟩, dependencies_built := false }

/-- The `AttributeError` raised by every read of `self.dependencies_manager`
in `PluginManager`: the class has no such attribute (`__init__` assigns only
`modules_dependencies` and `plugins_dependencies`, platform.py:321-322, and
there is no base class or `__getattr__`), yet `install_plugin`
(platform.py:355), `install_all_plugins` (:379), `__build_dependecies__`
(:416), `__cleanup_dependencies__` (:451) and `__mark_available__` (:460)
all dereference it. -/
def dependenciesManagerAttributeError : PErr :=
  .generic "AttributeError: 'PluginManager' object has no attribute 'dependencies_manager'"

/-- Dereference a container in the heap. -/
def PMState.getC (s : PMState) (cid : Nat) : Option PluginContainer :=
  alget s.containers cid

/-- Write a container back to the heap. -/
def PMState.putC (s : PMState) (cid : Nat) (c : PluginContainer) : PMState :=
  { s with containers := alset s.containers cid c }

/-- Modelled from the spec (§4.5): `export.satisfies(imp)`.  `ExportsEntry`
in support.py has no `satisfies` method; per the spec, a wildcard required
name (trailing `.*`) matches exports sharing the prefix, otherwise names must
be equal, and the export's version must fall in the required range. -/
def satisfiesExport (e : ExportsEntry) (imp : RequiresEntry) : Bool :=
  let nameOk :=
    if imp.name.endsWith ".*" then e.name.startsWith (imp.name.dropRight 2)
    else e.name == imp.name
  nameOk && (match e.version with
             | none => true
             | some v => imp.version_in_range v)

/-- The scan of `self.all_exports.items()` in `__build_dependecies__`
(platform.py:401-405): first export satisfying the requirement wins. -/
def findSatisfying (exps : List (ExportsEntry × Nat)) (imp : RequiresEntry) : Option Nat :=
  (exps.find? (fun p => satisfiesExport p.1 imp)).map (fun p => p.2)

/-- The `for imp in manifest.requires` loop of `__build_dependecies__`
(platform.py:398-408): each requirement is recorded in `all_requires` before
the export scan; an unsatisfied requirement raises
`UnsatisfiedDependencyException`, keeping the mutations made so far. -/
def buildRequiresLoop (pid : String) (cid : Nat) : PMState → List RequiresEntry → List String →
    PMState × List String × Option PErr
  | s, [], deps => (s, deps, none)
  | s, imp :: rest, deps =>
    let s1 := { s with all_requires := alset s.all_requires imp cid }
    match findSatisfying s1.all_exports imp with
    | some depCid =>
      buildRequiresLoop pid cid s1 rest
        (deps ++ [((s1.getC depCid).bind (fun c => c.plugin_id)).getD ""])
    | none =>
      (s1, deps, some (.unsatisfied ("Required module <" ++ imp.name ++
        "> stated in plugin [" ++ pid ++ "] cannot be satisfied.")))

/-- `__locate_plugin_for_import__` (platform.py:453-457). -/
def locatePluginForImport (s : PMState) (imp : RequiresEntry) : Option Nat :=
  (s.plugins_by_id.find? (fun p =>
    imp.name == p.1 &&
    (match (s.getC p.2).bind (fun c => c.manifest) with
     | some m => imp.version_in_range m.version
     | none => false))).map (fun p => p.2)

/-- The `for plugin_dep in manifest.requires_plugins` loop of
`__build_dependecies__` (platform.py:410-414). -/
def buildReqPluginsLoop : PMState → List RequiresEntry → List String →
    PMState × List String × Option PErr
  | s, [], deps => (s, deps, none)
  | s, pd :: rest, deps =>
    match locatePluginForImport s pd with
    | none => (s, deps, some (.unsatisfied ("Required plugin <" ++ pd.name ++
        "> is not available")))
    | some cidDep =>
      buildReqPluginsLoop s rest
        (deps ++ [((s.getC cidDep).bind (fun c => c.plugin_id)).getD ""])

/-- `PluginManager.__build_dependecies__(plugin_container)`
(platform.py:395-416): gather the dependency ids from required capabilities
and required sibling plugins.  The final statement,
`self.dependencies_manager.add_dependency(...)` (platform.py:416), raises
`AttributeError` — the attribute is never assigned — so the method never
completes normally; the `all_requires` mutations made by the loops
persist. -/
def buildDependencies (s : PMState) (cid : Nat) : PMState × Option PErr :=
  match s.getC cid with
  | none => (s, some (.generic "missing container"))
  | some c =>
    match c.manifest with
    | none => (s, some (.generic "AttributeError"))
    | some m =>
      let pid := c.plugin_id.getD ""
      match buildRequiresLoop pid cid s m.requires [] with
      | (s1, _, some e) => (s1, some e)
      | (s1, deps1, none) =>
        match buildReqPluginsLoop s1 m.requires_plugins deps1 with
        | (s2, _, some e) => (s2, some e)
        | (s2, _, none) => (s2, some dependenciesManagerAttributeError)

/-- `PluginManager.__cleanup_dependencies__(plugin_container)`
(platform.py:444-451): the exports loop deletes the old plugin's exports from
the index, and then `for imp in plugin_container.requires` raises
`AttributeError` — `PluginContainer` has no attribute `requires` (the
requires entries live on its manifest), so the requires cleanup and the
`delete_dependency` call at line 451 are never reached. -/
def cleanupDependencies (s : PMState) (cidOld : Nat) : PMState × Option PErr :=
  match s.getC cidOld with
  | none => (s, some (.generic "missing container"))
  | some old =>
    let exps := ((old.manifest.map (fun m => m.exports)).getD [])
    let s1 := { s with all_exports := exps.foldl (fun mp e => aldel mp e) s.all_exports }
    (s1, some (.generic
      "AttributeError: 'PluginContainer' object has no attribute 'requires'"))

/-- `PluginManager.reload_plugin(plugin_id, plugin_container)`
(platform.py:341-347): delete the existing plugin from both maps, clean up
its dependencies if they were built, and build the new container's dependency
edges.  The new container is never inserted into `plugins_by_id` or
`plugins_by_ref`. -/
def reloadPlugin (s : PMState) (pid : String) (cidNew : Nat) : PMState × Option PErr :=
  match alget s.plugins_by_id pid with
  | none => (s, some (.generic "KeyError"))
  | some cidOld =>
    let oldRef := ((s.getC cidOld).map (fun c => c.plugin_ref)).getD ""
    let s1 := { s with plugins_by_id := aldel s.plugins_by_id pid,
                       plugins_by_ref := aldel s.plugins_by_ref oldRef }
    if s1.dependencies_built then
      match cleanupDependencies s1 cidOld with
      | (s2, some e) => (s2, some e)
      | (s2, none) => buildDependencies s2 cidNew
    else
      buildDependencies s1 cidNew

/-- `PluginManager.add_plugin(plugin_ref)` (platform.py:329-339): reject a
reference already present, load a fresh container, and either route through
`reload_plugin` (existing id) or register in both maps and build dependency
edges. -/
def PluginManager_addPlugin (env : LoaderEnv) (s : PMState) (ref : String) :
    PMState × Option PErr :=
  if (alget s.plugins_by_ref ref).isSome then
    (s, some (.generic ("Plugin with reference " ++ ref ++ " already added")))
  else
    match (initContainer ref).load env with
    | (_, some e) => (s, some e)
    | (pc, none) =>
      let cid := s.nextId
      let s1 := { s with containers := s.containers ++ [(cid, pc)], nextId := cid + 1 }
      let pid := pc.plugin_id.getD ""
      if (alget s1.plugins_by_id pid).isSome then
        reloadPlugin s1 pid cid
      else
        let s2 := { s1 with plugins_by_ref := alset s1.plugins_by_ref ref cid,
                            plugins_by_id := alset s1.plugins_by_id pid cid }
        buildDependencies s2 cid

/-- `PluginManager.get_plugin(plugin_id)` (platform.py:389-393), returning
the heap id; `none` models the "is not registered" exception (the Platform
passes a container's `plugin_id`, which is an optional value). -/
def getPluginCid (s : PMState) (pid : Option String) : Option Nat :=
  match pid with
  | none => none
  | some p => alget s.plugins_by_id p

/-- `PluginManager.install_plugin(plugin_id)` (platform.py:349-359):
`get_plugin` runs first (line 354) and raises "is not registered" for an
unknown id; otherwise line 355,
`self.dependencies_manager.all_dependencies_satisfied(plugin_id)`, raises
`AttributeError` before anything else happens — the container install, the
finder registration and `__mark_available__` (platform.py:357-359) are
unreachable. -/
def PluginManager_installPlugin (s : PMState) (pid : Option String) :
    PMState × Option PErr :=
  match getPluginCid s pid with
  | none => (s, some (.generic ("Plugin with id " ++ pid.getD "None" ++
      " is not registered")))
  | some _ => (s, some dependenciesManagerAttributeError)

/-- `PluginManager.activate_plugin(plugin_id)` (platform.py:361-363). -/
def PluginManager_activatePlugin (s : PMState) (pid : Option String) :
    PMState × Option PErr :=
  match getPluginCid s pid with
  | none => (s, some (.generic ("Plugin with id " ++ pid.getD "None" ++
      " is not registered")))
  | some cid =>
    match s.getC cid with
    | none => (s, some (.generic "missing container"))
    | some c =>
      match c.activate with
      | (c1, _, err) => (s.putC cid c1, err)

/-- `PluginManager.deactivate_plugin(plugin_id)` (platform.py:365-368): a
no-op unless the plugin is currently `ACTIVE`. -/
def PluginManager_deactivatePlugin (s : PMState) (pid : Option String) :
    PMState × Option PErr :=
  match getPluginCid s pid with
  | none => (s, some (.generic ("Plugin with id " ++ pid.getD "None" ++
      " is not registered")))
  | some cid =>
    match s.getC cid with
    | none => (s, some (.generic "missing container"))
    | some c =>
      if c.plugin_state = some .active then
        match c.deactivate with
        | (c1, _, err) => (s.putC cid c1, err)
      else (s, none)

/-- `PluginManager.uninstall_plugin(plugin_id)` (platform.py:370-372). -/
def PluginManager_uninstallPlugin (s : PMState) (pid : Option String) :
    PMState × Option PErr :=
  match getPluginCid s pid with
  | none => (s, some (.generic ("Plugin with id " ++ pid.getD "None" ++
      " is not registered")))
  | some cid =>
    match s.getC cid with
    | none => (s, some (.generic "missing container"))
    | some c =>
      match c.uninstall with
      | (c1, _, err) => (s.putC cid c1, err)

/-- `PluginManager.install_all_plugins()` (platform.py:377-384): the first
statement, `install_order = self.dependencies_manager.get_install_order()`
(platform.py:379), raises `AttributeError` on every call — the attribute is
never assigned — so the install loop below it (platform.py:381-383) is dead
code and the method never installs anything. -/
def PluginManager_installAllPlugins (s : PMState) : PMState × Option PErr :=
  (s, some dependenciesManagerAttributeError)

/-! ### `Platform` bulk passes (platform.py:187-314) -/

/-- `PluginManager.get_all_plugins()` (platform.py:386-387) as the heap ids
in `plugins_by_id` insertion order; Platform passes snapshot this list, then
read each container's live state while iterating. -/
def snapshotCids (s : PMState) : List Nat := s.plugins_by_id.map (fun p => p.2)

/-- `Platform.activate_all_plugins` (platform.py:241-251): activate each
plugin; an exception from `activate_plugin` is caught and answered with a
`deactivate_plugin` attempt, whose own exception would propagate. -/
def activateAllLoop : PMState → List Nat → PMState × Option PErr
  | s, [] => (s, none)
  | s, cid :: rest =>
    let pid := (s.getC cid).bind (fun c => c.plugin_id)
    match PluginManager_activatePlugin s pid with
    | (s1, none) => activateAllLoop s1 rest
    | (s1, some _) =>
      match PluginManager_deactivatePlugin s1 pid with
      | (s2, none) => activateAllLoop s2 rest
      | (s2, some e) => (s2, some e)

/-- `Platform.activate_all_plugins` over the live plugin set. -/
def Platform_activateAllPlugins (s : PMState) : PMState × Option PErr :=
  activateAllLoop s (snapshotCids s)

/-- `Platform.deactivate_all_plugins` (platform.py:253-265): for each plugin
currently `ACTIVE`, attempt `deactivate_plugin`, catching and logging any
exception. -/
def deactivateAllLoop : PMState → List Nat → PMState
  | s, [] => s
  | s, cid :: rest =>
    match s.getC cid with
    | none => deactivateAllLoop s rest
    | some c =>
      if c.plugin_state = some .active then
        deactivateAllLoop (PluginManager_deactivatePlugin s c.plugin_id).1 rest
      else deactivateAllLoop s rest

/-- `Platform.deactivate_all_plugins`. -/
def Platform_deactivateAllPlugins (s : PMState) : PMState :=
  deactivateAllLoop s (snapshotCids s)

/-- `Platform.uninstall_all_plugins` (platform.py:267-280): for each plugin
in `INSTALLED` or `DEACTIVATED`, attempt `uninstall_plugin`, catching any
exception. -/
def uninstallAllLoop : PMState → List Nat → PMState
  | s, [] => s
  | s, cid :: rest =>
    match s.getC cid with
    | none => uninstallAllLoop s rest
    | some c =>
      if c.plugin_state = some .installed ∨ c.plugin_state = some .deactivated then
        uninstallAllLoop (PluginManager_uninstallPlugin s c.plugin_id).1 rest
      else uninstallAllLoop s rest

/-- `Platform.uninstall_all_plugins`. -/
def Platform_uninstallAllPlugins (s : PMState) : PMState :=
  uninstallAllLoop s (snapshotCids s)

/-- `Platform.destroy_all_plugins` (platform.py:282-294): for each plugin in
`UNINSTALLED`, the body logs "Disposing"/"Disposed" but calls
`deactivate_plugin` (platform.py:289), not a dispose operation; exceptions
are caught. -/
def destroyAllLoop : PMState → List Nat → PMState
  | s, [] => s
  | s, cid :: rest =>
    match s.getC cid with
    | none => destroyAllLoop s rest
    | some c =>
      if c.plugin_state = some .uninstalled then
        destroyAllLoop (PluginManager_deactivatePlugin s c.plugin_id).1 rest
      else destroyAllLoop s rest

/-- `Platform.destroy_all_plugins`. -/
def Platform_destroyAllPlugins (s : PMState) : PMState :=
  destroyAllLoop s (snapshotCids s)

/-- `Platform.shutdown` (platform.py:215-221): deactivate all, uninstall
all, then `deactivate_all_plugins` a second time (line 219), followed by
`plugins_manager.gc()` which is a `pass` stub (platform.py:374-375).
`destroy_all_plugins` is never called. -/
def Platform_shutdown (s : PMState) : PMState :=
  let s1 := Platform_deactivateAllPlugins s
  let s2 := Platform_uninstallAllPlugins s1
  let s3 := Platform_deactivateAllPlugins s2
  s3

/-- Read the lifecycle state of the plugin registered under `pid`. -/
def PMState.stateOf (s : PMState) (pid : String) : Option PState :=
  match alget s.plugins_by_id pid with
  | none => none
  | some cid => (s.getC cid).bind (fun c => c.plugin_state)

/-- Does `pat` occur as a contiguous substring of `hay`? -/
def startsWithChars : List Char → List Char → Bool
  | _, [] => true
  | [], _ :: _ => false
  | a :: xs, b :: ys => a == b && startsWithChars xs ys

/-- Substring occurrence on character lists. -/
def hasSubstring : List Char → List Char → Bool
  | [], pat => pat.isEmpty
  | h :: t, pat => startsWithChars (h :: t) pat || hasSubstring t pat

/-! ## Concrete scenario data shared by the claim theorems and witnesses -/

/-- A hook none of whose methods raises. -/
def hookOkW : Hook := ⟨false, false, false⟩

/-- A hook whose `activate` raises. -/
def hookBadW : Hook := ⟨true, false, false⟩

/-- A dependency-free manifest for plugin id `p`, version 1. -/
def manifestP1 : RtManifest :=
  { id := "p", version := "1", plugin_classes := [], requires := [],
    requires_plugins := [], exports := [] }

/-- A dependency-free manifest for plugin id `p`, version 2. -/
def manifestP2 : RtManifest :=
  { id := "p", version := "2", plugin_classes := [], requires := [],
    requires_plugins := [], exports := [] }

/-- A loader that resolves reference `r1` to version 1 of plugin `p` and
reference `r2` to version 2 of the same plugin id. -/
def envTwoRefs : LoaderEnv :=
  { loadPlugin := fun r => if r == "r1" then some manifestP1
                           else if r == "r2" then some manifestP2 else none,
    loadClass := fun _ => none }

/-- A loader that resolves nothing. -/
def envEmpty : LoaderEnv := { loadPlugin := fun _ => none, loadClass := fun _ => none }

/-- The container for plugin `p` loaded from reference `r1`. -/
def containerP1 : PluginContainer :=
  { plugin_ref := "r1", plugin_id := some "p", manifest := some manifestP1,
    plugin_hooks := some [], plugin_state := some .uninstalled,
    plugin := some manifestP1, version := some "1" }

/-- A registry holding exactly one plugin: id `p` under reference `r1`. -/
def pmOneP : PMState :=
  { containers := [(0, containerP1)], nextId := 1, plugins_by_ref := [("r1", 0)],
    plugins_by_id := [("p", 0)], all_exports := [], all_requires := [],
    modules_dependencies := ⟨[]⟩, plugins_dependencies := ⟨[]⟩,
    dependencies_built := false }

/-- An installed container with one hook, for the bulk-activation scenario. -/
def mkInstalledW (pid : String) (h : Hook) : PluginContainer :=
  { plugin_ref := pid, plugin_id := some pid, manifest := some manifestP1,
    plugin_hooks := some [h], plugin_state := some .installed,
    plugin := some manifestP1, version := some "1" }

/-- Three installed plugins; the second's hook raises on activate. -/
def pm3W : PMState :=
  { containers := [(0, mkInstalledW "p1" hookOkW), (1, mkInstalledW "p2" hookBadW),
                   (2, mkInstalledW "p3" hookOkW)],
    nextId := 3, plugins_by_ref := [("p1", 0), ("p2", 1), ("p3", 2)],
    plugins_by_id := [("p1", 0), ("p2", 1), ("p3", 2)], all_exports := [],
    all_requires := [], modules_dependencies := ⟨[]⟩, plugins_dependencies := ⟨[]⟩,
    dependencies_built := false }

/-- An active container for the shutdown scenario. -/
def containerActiveW : PluginContainer :=
  { plugin_ref := "r", plugin_id := some "p", manifest := some manifestP1,
    plugin_hooks := some [hookOkW], plugin_state := some .active,
    plugin := some manifestP1, version := some "1" }

/-- A platform with one active plugin. -/
def pmActiveW : PMState :=
  { containers := [(0, containerActiveW)], nextId := 1, plugins_by_ref := [("r", 0)],
    plugins_by_id := [("p", 0)], all_exports := [], all_requires := [],
    modules_dependencies := ⟨[]⟩, plugins_dependencies := ⟨[]⟩,
    dependencies_built := false }

/-- A container already disposed. -/
def containerDisposedW : PluginContainer :=
  { plugin_ref := "w", plugin_id := some "w", manifest := none, plugin_hooks := none,
    plugin_state := some .disposed, plugin := none, version := none }

/-- A manifest whose second hook class cannot be loaded. -/
def manifestTwoClassesW : RtManifest :=
  { id := "q", version := "1", plugin_classes := ["good", "bad"], requires := [],
    requires_plugins := [], exports := [] }

/-- A loader that can resolve hook class `good` but not `bad`. -/
def envGoodBadW : LoaderEnv :=
  { loadPlugin := fun _ => none,
    loadClass := fun n => if n == "good" then some hookOkW else none }

/-- An uninstalled container whose manifest names hook classes
`good` then `bad`. -/
def containerGoodBadW : PluginContainer :=
  { plugin_ref := "q", plugin_id := some "q", manifest := some manifestTwoClassesW,
    plugin_hooks := some [], plugin_state := some .uninstalled,
    plugin := some manifestTwoClassesW, version := some "1" }

/-- A requires entry `test.pkg [9, ...)` — one bound, inclusive; the bound is
normalized to `9.0.0` at construction. -/
def entryLexW : RequiresEntry := RequiresEntry.make "test.pkg" [(some "9", true)] false false

/-- A requires entry `other.pkg [1.0.0, 2.0.0)`. -/
def entryNormW : RequiresEntry :=
  RequiresEntry.make "other.pkg" [(some "1.0.0", true), (some "2.0.0", false)] false false
/-! ## Claim theorems -/

/-- C1.  The claim states that re-registering a reference that resolves to an
already-registered plugin id leaves the registry with exactly one plugin
under that id and an unchanged total count.  On the code this fails twice
over: `PluginManager.reload_plugin` (platform.py:341-347) deletes the old
plugin from `plugins_by_id` and `plugins_by_ref` and never inserts the new
container into either map, and the `__build_dependecies__` call it ends with
then raises `AttributeError` at platform.py:416 (`self.dependencies_manager`
is never assigned), with the dict deletions persisting.  Starting from a
registry holding plugin `p` under reference `r1`, adding reference `r2`
(whose manifest also resolves to id `p`) raises that `AttributeError`, and
afterwards no plugin at all is registered under id `p` — the registry has
shrunk from one plugin to zero. -/
theorem c1_reregistration_loses_plugin :
    pmOneP.plugins_by_id.length = 1 ∧
    (PluginManager_addPlugin envTwoRefs pmOneP "r2").2 =
      some dependenciesManagerAttributeError ∧
    alget (PluginManager_addPlugin envTwoRefs pmOneP "r2").1.plugins_by_id "p" = none ∧
    (PluginManager_addPlugin envTwoRefs pmOneP "r2").1.plugins_by_id.length = 0 ∧
    (PluginManager_addPlugin envTwoRefs pmOneP "r2").1.plugins_by_ref.length = 0 := by
  decide

/-- C2.  The claim (and the repository's own test
`TestPluginManifestParser.test_parse`) states that parsing the worked
six-block descriptor yields 2 plugin classes, 3 requires entries, 2 exports
and 2 requires-plugins entries.  On the code it does not: the content
handlers for those four blocks are `pass` stubs returning `None`
(support.py:284-294), and `parse` never flushes the final block
(support.py:247-263), so the manifest comes back with `plugin_classes =
None`, a single `None` requires entry, a single `None` exports entry and no
requires-plugins entry at all. -/
theorem c2_roundtrip_parse_diverges :
    (parseManifest testDescriptorLines).id = some "test.plugin" ∧
    (parseManifest testDescriptorLines).version = some "0.1.2.TEST" ∧
    (parseManifest testDescriptorLines).plugin_classes = none ∧
    (parseManifest testDescriptorLines).requires.length = 1 ∧
    (parseManifest testDescriptorLines).exports.length = 1 ∧
    (parseManifest testDescriptorLines).requires_plugins.length = 0 := by
  decide

/-- C7.  The claim states that shutdown is deactivate → uninstall → dispose.
On the code the third pass never disposes anything: `Platform.shutdown`
(platform.py:215-221) calls `deactivate_all_plugins` a second time instead of
`destroy_all_plugins`, and `destroy_all_plugins` itself (platform.py:282-294)
calls `deactivate_plugin` rather than any dispose operation.  A platform with
one active plugin ends shutdown with that plugin `UNINSTALLED`, not
`DISPOSED` — and even an explicit `destroy_all_plugins` pass afterwards
leaves it `UNINSTALLED`. -/
theorem c7_shutdown_never_disposes :
    (Platform_shutdown pmActiveW).stateOf "p" = some PState.uninstalled ∧
    (Platform_shutdown pmActiveW).stateOf "p" ≠ some PState.disposed ∧
    (Platform_destroyAllPlugins (Platform_shutdown pmActiveW)).stateOf "p" =
      some PState.uninstalled := by
  decide

/-- C8.  The claim states that a descriptor without a `PLUGIN-ID` block
produces a structured parse error.  On the code, `parse`
(support.py:243-263) has no error path at all: it returns
`builder.build()` unconditionally, so a descriptor with no `PLUGIN-ID`
block yields a manifest whose `id` is `None` instead of any parse error
(and a malformed version-range token can never be detected, because the
requires/exports content handlers are stubs that never inspect their
content). -/
theorem c8_missing_plugin_id_yields_manifest :
    parseManifest ["VERSION: 1.0", "EXTRA: x"] =
      { id := none, version := some "1.0", plugin_classes := some [],
        requires := [], requires_plugins := [], exports := [] } := by
  decide

/-- C10.  `PluginManager.add_plugin` (platform.py:329-332) checks
`plugins_by_ref` first: a reference already present raises before the
container is created or loaded — the conclusion holds for every loader
environment, which is exactly the statement that no loading is consulted —
and the returned state is the input state, so the reference map, id map,
export index and dependency bookkeeping are all unchanged. -/
theorem c10_duplicate_reference_rejected (s : PMState) (ref : String) (cid : Nat)
    (h : alget s.plugins_by_ref ref = some cid) :
    ∀ env : LoaderEnv, PluginManager_addPlugin env s ref =
      (s, some (PErr.generic ("Plugin with reference " ++ ref ++ " already added"))) := by
  intro env
  unfold PluginManager_addPlugin
  rw [h]
  rfl

/-- Witness for C10 at a concrete registry: reference `r1` is present, and
re-adding it fails with the duplicate-reference error, state untouched. -/
theorem c10_duplicate_reference_rejected_witness :
    alget pmOneP.plugins_by_ref "r1" = some 0 ∧
    PluginManager_addPlugin envTwoRefs pmOneP "r1" =
      (pmOneP, some (PErr.generic ("Plugin with reference " ++ "r1" ++ " already added"))) :=
  ⟨by decide, c10_duplicate_reference_rejected pmOneP "r1" 0 (by decide) envTwoRefs⟩

/-- Counterexample for C6.  The claim describes normalize-then-segment-wise
comparison; the code's `version_in_range` compares whole Python strings.
For the entry `test.pkg [9, ·)` (bound normalized to `9.0.0`), the version
`10.0.0` is numerically inside the range — the spec-side semantics accepts
it — but the code rejects it because `"10.0.0" >= "9.0.0"` is false as a
string comparison.  For `other.pkg [1.0.0, 2.0.0)`, the version `1` would be
normalized to `1.0.0` and accepted per the claim, but the code compares the
un-normalized `"1"` and rejects it. -/
theorem c6_range_check_counterexample :
    entryLexW.version_in_range "10.0.0" = false ∧
    specVersionInRange entryLexW "10.0.0" = true ∧
    entryNormW.version_in_range "1" = false ∧
    specVersionInRange entryNormW "1" = true := by
  decide

/-- C6 as amended to the code: `RequiresEntry` construction normalizes the
BOUNDS (not the queried version) to three segments, and `version_in_range`
compares the queried version string as-is against each bound with plain
whole-string lexicographic (code-point) comparison — `>`/`>=` for the lower
bound and `<`/`<=` for the upper bound per inclusivity, an absent bound
always satisfied (an entry built with no bounds accepts every version). -/
theorem c6_range_check_amended (nm lv hv v : String) (li hi_i : Bool) :
    ((RequiresEntry.make nm [(some lv, li), (some hv, hi_i)] false false).version_in_range v
        = true ↔
      ((if li then ¬(pyStrLt v (normalize_version_string lv) = true)
        else pyStrLt (normalize_version_string lv) v = true) ∧
       (if hi_i then ¬(pyStrLt (normalize_version_string hv) v = true)
        else pyStrLt v (normalize_version_string hv) = true))) ∧
    (RequiresEntry.make nm [] false false).version_in_range v = true := by
  constructor
  · cases li <;> cases hi_i <;>
      simp [RequiresEntry.make, RequiresEntry.version_in_range, normalize_version,
            check_min_version, check_max_version]
  · simp [RequiresEntry.make, RequiresEntry.version_in_range, normalize_version,
          check_min_version, check_max_version]

/-- Counterexample for C9.  The claim says every lifecycle operation,
including `load`, raises a `PluginLifecycleError` naming the attempted
operation and the actual state.  `PluginContainer.load` on a disposed
container (platform.py:96-97) raises with the message
`"Plugin already disposed"`, which does not name the operation (the string
`load` does not occur in it) and does not follow the
`"Cannot <op> plugin. Invalid state: <state>"` pattern of the other five
operations. -/
theorem c9_load_message_counterexample :
    containerDisposedW.load envEmpty =
      (containerDisposedW, some (PErr.lifecycle "Plugin already disposed")) ∧
    hasSubstring "Plugin already disposed".data "load".data = false ∧
    "Plugin already disposed" ≠
      "Cannot load plugin. Invalid state: " ++ pyStateStr containerDisposedW.plugin_state := by
  decide

/-- C9 as amended to the code: every lifecycle operation invoked outside its
valid source states raises `PluginLifecycleError` and leaves the container
(in particular its state) unchanged; `install`, `activate`, `deactivate`,
`uninstall` and `dispose` name the attempted operation and the actual state
in the message, while `load` (valid from every state except `DISPOSED`)
reports `"Plugin already disposed"` without naming the operation.  The
`dispose`-on-`DISPOSED` conjunct covers the idempotent-disposal half of the
claim. -/
theorem c9_invalid_state_transitions (c : PluginContainer) (env : LoaderEnv) :
    (c.plugin_state ≠ some PState.uninstalled →
      c.install env = (c, [], some (PErr.lifecycle
        ("Cannot install plugin. Invalid state: " ++ pyStateStr c.plugin_state)))) ∧
    ((c.plugin_state ≠ some PState.installed ∧ c.plugin_state ≠ some PState.deactivated) →
      c.activate = (c, [], some (PErr.lifecycle
        ("Cannot activate plugin. Invalid state: " ++ pyStateStr c.plugin_state)))) ∧
    (c.plugin_state ≠ some PState.active →
      c.deactivate = (c, [], some (PErr.lifecycle
        ("Cannot deactivate plugin. Invalid state: " ++ pyStateStr c.plugin_state)))) ∧
    ((c.plugin_state ≠ some PState.deactivated ∧ c.plugin_state ≠ some PState.installed) →
      c.uninstall = (c, [], some (PErr.lifecycle
        ("Cannot uninstall plugin. Invalid state: " ++ pyStateStr c.plugin_state)))) ∧
    (c.plugin_state ≠ some PState.uninstalled →
      c.dispose = (c, [], some (PErr.lifecycle
        ("Cannot dispose plugin. Invalid state: " ++ pyStateStr c.plugin_state)))) ∧
    (c.plugin_state = some PState.disposed →
      c.load env = (c, some (PErr.lifecycle "Plugin already disposed"))) := by
  refine ⟨fun h => ?_, fun h => ?_, fun h => ?_, fun h => ?_, fun h => ?_, fun h => ?_⟩
  · unfold PluginContainer.install; rw [if_pos h]
  · unfold PluginContainer.activate; rw [if_pos h]
  · unfold PluginContainer.deactivate; rw [if_pos h]
  · unfold PluginContainer.uninstall; rw [if_pos h]
  · unfold PluginContainer.dispose; rw [if_pos h]
  · unfold PluginContainer.load; rw [if_pos h]

/-- Witness for C9 at a concrete disposed container: `dispose` on a
`DISPOSED` plugin raises the lifecycle error naming the operation and state
4, and `load` on it raises `"Plugin already disposed"`. -/
theorem c9_invalid_state_transitions_witness :
    containerDisposedW.dispose = (containerDisposedW, [], some (PErr.lifecycle
      ("Cannot dispose plugin. Invalid state: " ++ pyStateStr containerDisposedW.plugin_state))) ∧
    containerDisposedW.load envEmpty =
      (containerDisposedW, some (PErr.lifecycle "Plugin already disposed")) :=
  ⟨(c9_invalid_state_transitions containerDisposedW envEmpty).2.2.2.2.1 (by decide),
   (c9_invalid_state_transitions containerDisposedW envEmpty).2.2.2.2.2 (by decide)⟩

/-- When `create_hooks` raises, the class list splits at the first class the
loader cannot resolve, and the hooks accumulated on the container are exactly
the starting list plus the hooks resolved before that class. -/
lemma createHooks_failure_split (env : LoaderEnv) :
    ∀ (cls : List String) (acc hs : List Hook) (e : PErr),
      createHooks env cls acc = (hs, some e) →
      ∃ pre cn suf, cls = pre ++ cn :: suf ∧ env.loadClass cn = none ∧
        (∀ x ∈ pre, (env.loadClass x).isSome = true) ∧
        hs = acc ++ pre.filterMap (fun x => env.loadClass x) := by
  intro cls
  induction cls with
  | nil => intro acc hs e h; simp [createHooks] at h
  | cons cn rest ih =>
    intro acc hs e h
    unfold createHooks at h
    cases hc : env.loadClass cn with
    | none =>
      rw [hc] at h
      refine ⟨[], cn, rest, by simp, hc, by simp, ?_⟩
      simpa using (Prod.mk.injEq .. ▸ h).1.symm
    | some hk =>
      rw [hc] at h
      obtain ⟨pre, cn', suf, hcls, hno, hpre, hhs⟩ := ih (acc ++ [hk]) hs e h
      refine ⟨cn :: pre, cn', suf, by simp [hcls], hno, ?_, ?_⟩
      · intro x hx
        rcases List.mem_cons.mp hx with rfl | hx
        · simp [hc]
        · exact hpre x hx
      · simp [List.filterMap_cons, hc, hhs, List.append_assoc]

/-- Counterexample for C4.  The claim states that after a failed hook
resolution the container's hook sequence holds none of the hooks resolved
before the failure.  On the code, `create_hooks` (platform.py:117-124)
appends each hook to `self.plugin_hooks` as it goes, and the `except` branch
of `install` (platform.py:113-115) only sets the state to `DISPOSED` before
re-raising — it does not undo the appends.  With classes `[good, bad]` where
`bad` fails to load, the failed install leaves the `good` hook in the
container's hook list. -/
theorem c4_partial_hooks_counterexample :
    (containerGoodBadW.install envGoodBadW).1.plugin_state = some PState.disposed ∧
    (containerGoodBadW.install envGoodBadW).2.2 =
      some (PErr.generic ("Cannot load class: " ++ "bad")) ∧
    (containerGoodBadW.install envGoodBadW).1.plugin_hooks = some [hookOkW] ∧
    (containerGoodBadW.install envGoodBadW).1.plugin_hooks ≠ some [] := by
  decide

/-- C4 as amended to the code: for a container in `UNINSTALLED`, if hook
resolution fails at some class, the state becomes `DISPOSED`, the exception
propagates to the caller, no state-change notification is made — but the
container's hook sequence retains exactly the hooks resolved before the
failing class (no rollback of the partial hook list). -/
theorem c4_install_failure_disposes_but_keeps_hooks (env : LoaderEnv)
    (c : PluginContainer) (m : RtManifest) (acc hs : List Hook) (e : PErr)
    (h1 : c.plugin_state = some PState.uninstalled)
    (h2 : c.plugin = some m) (h3 : c.plugin_hooks = some acc)
    (h4 : createHooks env m.plugin_classes acc = (hs, some e)) :
    c.install env =
      ({ c with plugin_hooks := some hs, plugin_state := some PState.disposed }, [], some e) ∧
    ∃ pre cn suf, m.plugin_classes = pre ++ cn :: suf ∧ env.loadClass cn = none ∧
      (∀ x ∈ pre, (env.loadClass x).isSome = true) ∧
      hs = acc ++ pre.filterMap (fun x => env.loadClass x) := by
  constructor
  · unfold PluginContainer.install
    rw [if_neg (by simp [h1]), h2, h3]
    simp [h4]
  · exact createHooks_failure_split env m.plugin_classes acc hs e h4

/-- Witness for C4 at the concrete `[good, bad]` container. -/
theorem c4_install_failure_disposes_but_keeps_hooks_witness :
    containerGoodBadW.install envGoodBadW =
      ({ containerGoodBadW with plugin_hooks := some [hookOkW],
                                plugin_state := some PState.disposed }, [],
       some (PErr.generic ("Cannot load class: " ++ "bad"))) ∧
    ∃ pre cn suf, manifestTwoClassesW.plugin_classes = pre ++ cn :: suf ∧
      envGoodBadW.loadClass cn = none ∧
      (∀ x ∈ pre, (envGoodBadW.loadClass x).isSome = true) ∧
      [hookOkW] = [] ++ pre.filterMap (fun x => envGoodBadW.loadClass x) :=
  c4_install_failure_disposes_but_keeps_hooks envGoodBadW containerGoodBadW
    manifestTwoClassesW [] [hookOkW] (PErr.generic ("Cannot load class: " ++ "bad"))
    (by decide) (by decide) (by decide) (by decide)

/-- C3.  The claim describes `install_all_plugins` installing plugins in
topological order, marking each available after its install.  On the source
this method cannot perform a single install: its first statement,
`install_order = self.dependencies_manager.get_install_order()`
(platform.py:379), reads an attribute that `PluginManager` never assigns
(`__init__` creates only `modules_dependencies` and `plugins_dependencies`,
platform.py:321-322), so every call raises `AttributeError` with the
registry unchanged and the install loop is dead code.  Likewise
`install_plugin` on any registered plugin raises the same `AttributeError`
at platform.py:355 before installing or marking anything. -/
theorem c3_install_all_plugins_always_raises :
    (∀ s : PMState, PluginManager_installAllPlugins s =
      (s, some dependenciesManagerAttributeError)) ∧
    PluginManager_installPlugin pmOneP (some "p") =
      (pmOneP, some dependenciesManagerAttributeError) :=
  ⟨fun _ => rfl, by decide⟩

/-- C5.  `PluginContainer.activate` (platform.py:132-143): from `INSTALLED`
or `DEACTIVATED`, a raising hook is logged and swallowed — `activate`
returns with no exception, the state becomes `DEACTIVATED` and the hooks are
notified of `DEACTIVATED` (the returned event list).  Consequently the bulk
pass `Platform.activate_all_plugins` (platform.py:241-251) over three
installed plugins whose second hook raises completes without error and
leaves plugin 1 `ACTIVE`, plugin 2 `DEACTIVATED`, plugin 3 `ACTIVE`. -/
theorem c5_activation_error_swallowed (c : PluginContainer) (hooks : List Hook)
    (h1 : c.plugin_state = some PState.installed ∨ c.plugin_state = some PState.deactivated)
    (h2 : c.plugin_hooks = some hooks)
    (h3 : hookLoopRaises hooks = true) :
    c.activate = ({ c with plugin_state := some PState.deactivated },
                  [PState.deactivated], none) ∧
    ((Platform_activateAllPlugins pm3W).2 = none ∧
     (Platform_activateAllPlugins pm3W).1.stateOf "p1" = some PState.active ∧
     (Platform_activateAllPlugins pm3W).1.stateOf "p2" = some PState.deactivated ∧
     (Platform_activateAllPlugins pm3W).1.stateOf "p3" = some PState.active) := by
  constructor
  · rcases h1 with h1 | h1 <;>
      · unfold PluginContainer.activate
        rw [if_neg (by simp [h1]), h2]
        simp [h3]
  · exact ⟨by decide, by decide, by decide, by decide⟩

/-- Witness for C5 at the second plugin of the three-plugin scenario. -/
theorem c5_activation_error_swallowed_witness :
    (mkInstalledW "p2" hookBadW).activate =
      ({ mkInstalledW "p2" hookBadW with plugin_state := some PState.deactivated },
       [PState.deactivated], none) ∧
    ((Platform_activateAllPlugins pm3W).2 = none ∧
     (Platform_activateAllPlugins pm3W).1.stateOf "p1" = some PState.active ∧
     (Platform_activateAllPlugins pm3W).1.stateOf "p2" = some PState.deactivated ∧
     (Platform_activateAllPlugins pm3W).1.stateOf "p3" = some PState.active) :=
  c5_activation_error_swallowed (mkInstalledW "p2" hookBadW) [hookBadW]
    (Or.inl (by decide)) (by decide) (by decide)

end Termite
